import Mathlib

/-!
Shallow embedding of the core of `repo-utilities` (the apt repository
index & trust chain builder) and verification of the frozen claims.

The embedded source files are:
* `src/repo_utilities/apt/build_repo.py` (`build_repo`, `get_packages_hashes`,
  `create_release_file`, `create_packages`, `create_packages_gz`, `create_repo`),
* `src/repo_utilities/utils.py` (`change_cwd`, `find_common_parent`, `symlinker`),
* `src/repo_utilities/gpg.py` (`GPG2.import_priv_key`, `TempGPG`, `sign_repo`),
* `src/repo_utilities/temp.py` (`TemporaryDirectory.cleanup`).

Modelling conventions:
* byte strings are `List Nat` (each entry < 256 where it matters);
* filesystem paths are lists of path components (`PyPath`), in resolved form
  (absolute, the leading root component is left implicit since it is common
  to every absolute path);
* the external collaborators (hashlib digests, zlib's deflate and crc32, the
  dpkg-scanpackages scanner, the gpg subprocesses) are opaque parameters:
  the code under test only moves their outputs around;
* Python exceptions are values of an explicit `PyExc` type, fallible code
  returns `Except PyExc _`.
-/

namespace RepoUtilities

/-- Byte strings: lists of byte values. -/
abbrev Bytes := List Nat

/-- Resolved filesystem paths as lists of components (root implicit). -/
abbrev PyPath := List String

/-- UTF-8 encoding of a single code point, as CPython's `str.encode("utf-8")`
produces it. -/
def utf8Char (c : Char) : Bytes :=
  let n := c.toNat
  if n < 0x80 then [n]
  else if n < 0x800 then
    [0xC0 ||| (n >>> 6), 0x80 ||| (n &&& 0x3F)]
  else if n < 0x10000 then
    [0xE0 ||| (n >>> 12), 0x80 ||| ((n >>> 6) &&& 0x3F), 0x80 ||| (n &&& 0x3F)]
  else
    [0xF0 ||| (n >>> 18), 0x80 ||| ((n >>> 12) &&& 0x3F),
     0x80 ||| ((n >>> 6) &&& 0x3F), 0x80 ||| (n &&& 0x3F)]

/-- UTF-8 encoding of a text, `s.encode("utf-8")`. -/
def utf8Encode (s : String) : Bytes :=
  s.data.flatMap utf8Char

/-- String suffix test on the character lists (`name.endswith(t)` in Python). -/
def endsWithL (s t : String) : Bool :=
  t.data.isSuffixOf s.data

/-- Index of the last `'.'` in a character list (`name.rfind('.')`,
`none` standing for the return value `-1`). -/
def lastDotIdx : List Char → Option Nat
  | [] => none
  | c :: cs =>
    match lastDotIdx cs with
    | some j => some (j + 1)
    | none => if c = '.' then some 0 else none

/-- `PurePath.suffix` of a final path component: the part from the last dot,
empty unless that dot is at an index `i` with `0 < i < len(name) - 1`. -/
def pySuffix (name : String) : String :=
  match lastDotIdx name.data with
  | none => ""
  | some i =>
    if 0 < i ∧ i < name.data.length - 1 then String.mk (name.data.drop i) else ""

/-- Splitting a character list at `'.'` (Python's `str.split('.')`). -/
def splitOnDot : List Char → List (List Char)
  | [] => [[]]
  | c :: cs =>
    if c = '.' then [] :: splitOnDot cs
    else
      match splitOnDot cs with
      | [] => [[c]]
      | s :: ss => (c :: s) :: ss

/-- `PurePath.suffixes` of a final path component: empty for names ending in a
dot, otherwise one `"." + part` per dot-separated part of the name after its
leading dots are stripped, the first part dropped. -/
def pySuffixes (name : String) : List String :=
  if name.data.getLast? = some '.' then []
  else
    (splitOnDot (name.data.dropWhile (· = '.'))).tail.map
      (fun s => String.mk ('.' :: s))

/-- `l[-2:]` on a Python list: the last two elements (fewer if short). -/
def lastTwo (l : List String) : List String :=
  l.drop (l.length - 2)

/-- `PurePath.with_suffix` on a final path component: strip the current
suffix, if any, and append the new one. -/
def pyWithSuffixName (name newSuffix : String) : String :=
  let old := pySuffix name
  if old = "" then name ++ newSuffix
  else String.mk (name.data.take (name.data.length - old.data.length)) ++ newSuffix

/-- `Path.with_suffix` on a whole path. -/
def pyWithSuffix (p : PyPath) (newSuffix : String) : PyPath :=
  p.dropLast ++ [pyWithSuffixName (p.getLast?.getD "") newSuffix]

/-- `path.relative_to(path.parent.parent.parent)` rendered as text, for paths
with at least three components: the last three components joined by `/`. -/
def relPathLast3 (p : PyPath) : String :=
  String.intercalate "/" (p.drop (p.length - 3))

/-- The three digest algorithms used by `get_packages_hashes` (`hashlib.md5`,
`hashlib.sha1`, `hashlib.sha256`): external collaborators, modelled as opaque
functions from byte strings to hex strings. -/
structure HashFuncs where
  md5 : Bytes → String
  sha1 : Bytes → String
  sha256 : Bytes → String

/-- One hash-table line, `f" {hash_str} {char_count} {rel_path}"`, where the
digest and the decimal count are computed over the same byte string
`content`. -/
def hashLine (f : Bytes → String) (path : PyPath) (content : Bytes) : String :=
  " " ++ f content ++ " " ++ toString content.length ++ " " ++ relPathLast3 path

/-- The `header_hashes` list of `get_packages_hashes`: algorithm header names
with their digest functions, in source order. -/
def headerHashes (H : HashFuncs) : List (String × (Bytes → String)) :=
  [("MD5Sum", H.md5), ("SHA1", H.sha1), ("SHA256", H.sha256)]

/-- `get_packages_hashes(packages, packages_gz)` of `apt/build_repo.py`:
for each algorithm a header line `f"{header}:"`, then for each element of
`zip(packages, packages_gz, strict=True)` one line for the plain index (its
text UTF-8 encoded) and one line for the compressed index (its raw bytes).
`strict=True` raises `ValueError` when the two sequences differ in length;
the str-vs-bytes branch inside `_hash_func` never re-encodes because the
loop body already encoded the content. -/
def get_packages_hashes (H : HashFuncs)
    (packages : List (PyPath × String)) (packages_gz : List (PyPath × Bytes)) :
    Except String (List String) :=
  if packages.length = packages_gz.length then
    Except.ok ((headerHashes H).flatMap (fun hh =>
      (hh.1 ++ ":") ::
        (packages.zip packages_gz).flatMap (fun elem =>
          [hashLine hh.2 elem.1.1 (utf8Encode elem.1.2),
           hashLine hh.2 elem.2.1 elem.2.2])))
  else
    Except.error "zip() arguments have unequal lengths"

/-- `create_release_file(data, suite)` of `apt/build_repo.py`. `data` is the
insertion-ordered architecture mapping, each value a pair of (plain index
path, text) and (compressed index path, bytes); `date` stands for the
`datetime.now(timezone.utc)` timestamp string. The line
`packages, packages_gz = zip(*data.values(), strict=False)` raises
`ValueError` (`not enough values to unpack`) when `data` is empty, because
`zip()` of zero iterables is an empty iterator unpacked into two names. -/
def create_release_file (H : HashFuncs) (date : String)
    (data : List (String × ((PyPath × String) × (PyPath × Bytes))))
    (suite : String) : Except String String :=
  let origin := "Custom Repository"
  let label := "Custom"
  let codename := suite
  let version := "1.0"
  let components := "main"
  let desc := "A set of packages not available in the official repositories."
  let lines : List String :=
    ["Origin: " ++ origin,
     "Label: " ++ label,
     "Suite: " ++ suite,
     "Codename: " ++ codename,
     "Version: " ++ version,
     "Architectures: " ++ String.intercalate " " (data.map Prod.fst),
     "Components: " ++ components,
     "Description: " ++ desc,
     "Date: " ++ date]
  if data.isEmpty then
    Except.error "not enough values to unpack (expected 2, got 0)"
  else
    match get_packages_hashes H (data.map (fun d => d.2.1))
        (data.map (fun d => d.2.2)) with
    | Except.error e => Except.error e
    | Except.ok hashes =>
      Except.ok (String.intercalate "\n" (lines ++ hashes) ++ "\n")

/-- Python exceptions that the embedded code can raise. -/
inductive PyExc
  | calledProcessError (returncode : Nat)
  | valueError (msg : String)
  | osError (msg : String)
  | fileExistsError
  deriving Repr, DecidableEq

/-- A 32-bit little-endian encoding, as `gzip.write32u` emits it. -/
def le32 (n : Nat) : Bytes :=
  [n % 256, n / 256 % 256, n / 65536 % 256, n / 16777216 % 256]

/-- The gzip member header `gzip.GzipFile(fileobj=BytesIO(), mode="wb")`
writes: magic `1f 8b`, deflate method, no flags (a `BytesIO` has no `name`,
so no FNAME field), the modification time `int(time.time())` as 4 bytes
little-endian, XFL 2 (best compression, the default level 9) and OS byte
255. -/
def gzipHeader (mtime : Nat) : Bytes :=
  [0x1f, 0x8b, 8, 0] ++ le32 (mtime % 4294967296) ++ [2, 255]

/-- A full gzip member as `GzipFile` writes it: header, deflate stream, CRC-32
and input length modulo 2^32. `deflate` and `crc32` are zlib, an external
collaborator: opaque but deterministic functions of the input bytes. -/
def gzipCompress (deflate : Bytes → Bytes) (crc32 : Bytes → Nat)
    (mtime : Nat) (data : Bytes) : Bytes :=
  gzipHeader mtime ++ deflate data ++ le32 (crc32 data % 4294967296)
    ++ le32 (data.length % 4294967296)

/-- `create_packages_gz(packages_file, packages, skip_update)` of
`apt/build_repo.py`: the compressed sibling path `with_suffix(".gz")` and
either the previously persisted bytes (`skip_update=True` re-reads the file,
modelled by `persistedGz`) or a fresh gzip member over the UTF-8 encoded
index text, stamped with the current time `mtime`. -/
def create_packages_gz (deflate : Bytes → Bytes) (crc32 : Bytes → Nat)
    (mtime : Nat) (persistedGz : Bytes) (packages_file : PyPath)
    (packages : String) (skip_update : Bool) : PyPath × Bytes :=
  let packages_gz_file := pyWithSuffix packages_file ".gz"
  if skip_update then (packages_gz_file, persistedGz)
  else (packages_gz_file, gzipCompress deflate crc32 mtime (utf8Encode packages))

/-- What the candidate loop of `build_repo` does with one candidate file,
decided from the resolved path's final component. -/
inductive PkgAction
  | link
  | skip
  | raiseUnexpected
  deriving Repr, DecidableEq, BEq

/-- The candidate test of `build_repo`: link `.deb` files, silently skip
files whose suffix is `.tar` or whose last two suffixes are `.tar`, `.gz`,
raise `ValueError` otherwise. -/
def classify_pkg (name : String) : PkgAction :=
  if pySuffix name ≠ ".deb" then
    if pySuffix name = ".tar" ∨ lastTwo (pySuffixes name) = [".tar", ".gz"] then
      PkgAction.skip
    else PkgAction.raiseUnexpected
  else PkgAction.link

/-- The pool directory: entries by final path component, each holding the
symlink contents written there. -/
abbrev Pool := List (String × PyPath)

/-- `target_pkg.unlink(missing_ok=True)`: drop the entry of that name if
present, no error if absent. -/
def pyUnlinkMissingOk (pool : Pool) (name : String) : Pool :=
  pool.filter (fun e => e.1 ≠ name)

/-- `target.symlink_to(rel_symlink)`: raises `FileExistsError` when an entry
of that name exists, otherwise records the new entry. -/
def pySymlinkTo (pool : Pool) (name : String) (link : PyPath) :
    Except PyExc Pool :=
  if pool.any (fun e => e.1 = name) then Except.error PyExc.fileExistsError
  else Except.ok ((name, link) :: pool)

/-- One iteration of the candidate loop of `build_repo` (lines 54-62): check
the extension of the resolved candidate, then unlink any same-named pool
entry and create the symlink (whose contents `link` the caller computed with
`symlinker`). The error branches return without touching the pool. -/
def link_pkg (pool : Pool) (name : String) (link : PyPath) :
    Except PyExc Pool :=
  match classify_pkg name with
  | PkgAction.skip => Except.ok pool
  | PkgAction.raiseUnexpected =>
    Except.error (PyExc.valueError ("Unexpected file: " ++ name))
  | PkgAction.link => pySymlinkTo (pyUnlinkMissingOk pool name) name link

/-- `find_common_parent` of `utils.py` for two paths: position-wise comparison
of the part lists, stopping at the first disagreement (the longest common
prefix of the component lists). -/
def find_common_parent : PyPath → PyPath → PyPath
  | x :: a, y :: b => if x = y then x :: find_common_parent a b else []
  | _, _ => []

/-- `symlinker(src, target)` of `utils.py`, reduced to the contents of the
created link: both paths are already resolved, `rel_src`/`rel_target` are
their remainders past the common parent, and the link is
`Path("../" * len(rel_target.parent.parts)) / rel_src`. -/
def symlinker (src target : PyPath) : PyPath :=
  let common_parent := find_common_parent src target
  let rel_src := src.drop common_parent.length
  let rel_target := target.drop common_parent.length
  List.replicate rel_target.dropLast.length ".." ++ rel_src

/-- Lexical resolution of a path that may hold `..` components: each `..`
removes the component before it. -/
def resolveParts (p : PyPath) : PyPath :=
  p.foldl (fun acc comp => if comp = ".." then acc.dropLast else acc ++ [comp]) []

/-- `change_cwd(path)` of `utils.py` around a body: remember the working
directory, `os.chdir(path)` inside the `try`, run the body (which receives
the new working directory and returns its result together with the working
directory it leaves behind), and `os.chdir(cwd)` in the `finally` on every
exit path. `chdirOk` models which directories `os.chdir` can enter; a failed
restore leaves the body's working directory in place and raises. -/
def change_cwd {α : Type} (chdirOk : String → Bool) (path : String)
    (body : String → Except PyExc α × String) (cwd0 : String) :
    Except PyExc α × String :=
  if chdirOk path then
    let r := body path
    if chdirOk cwd0 then (r.1, cwd0)
    else (Except.error (PyExc.osError "chdir"), r.2)
  else
    -- os.chdir(path) raised inside the try: the directory never changed,
    -- the finally chdir returns to where the process already is.
    (Except.error (PyExc.osError "chdir"), cwd0)

/-- The working-directory behaviour of `create_packages` of
`apt/build_repo.py`: the `DpkgScanPackages(...).scan()` call (the external
scanner, which may return or raise) runs inside `with change_cwd(repo)`. -/
def create_packages_cwd {α : Type} (chdirOk : String → Bool) (repo : String)
    (scanner : String → Except PyExc α × String) (cwd0 : String) :
    Except PyExc α × String :=
  change_cwd chdirOk repo scanner cwd0

/-- The behaviour of the external world during one `sign_repo` run:
the exit status of `/bin/gpg --import`, how many secret keys the key file
holds (`gpg` imports a public-only file with exit status 0), whether the
`Release` file can be read for signing, the exit status of `/bin/gpg
--export`, and whether the `TMPDIR_DEBUG` environment variable is set. -/
structure GpgWorld where
  importExit : Nat
  secretKeysInFile : Nat
  readReleaseOk : Bool
  exportExit : Nat
  tmpdirDebug : Bool
  deriving Repr, DecidableEq

/-- `with TempGPG(tmp) as gpg:` — `__enter__` creates the keyring directory,
the body runs, `__exit__` calls `TemporaryDirectory.cleanup` on every exit
path; `cleanup` (`temp.py`) removes the directory unless `TMPDIR_DEBUG` is
set. Returns the body's outcome and whether the keyring directory still
exists afterwards. -/
def withTempGPG {α : Type} (tmpdirDebug : Bool) (body : Except PyExc α) :
    Except PyExc α × Bool :=
  let keyringExists := true
  (body, if tmpdirDebug then keyringExists else false)

/-- `GPG2.import_priv_key` (`gpg.py` lines 38-46): `subprocess.check_call`
on `/bin/gpg --import`, which raises `CalledProcessError` exactly when the
subprocess exits nonzero. No property of the imported material is checked:
the secret-key count of the file is never consulted. -/
def import_priv_key (w : GpgWorld) : Except PyExc Unit :=
  if w.importExit ≠ 0 then
    Except.error (PyExc.calledProcessError w.importExit)
  else Except.ok ()

/-- `GPG2.sign_file` (`gpg.py`): reads the input file (raising `OSError`
when it cannot), then lets python-gnupg sign and writes the result, raising
nothing of its own. -/
def sign_file (w : GpgWorld) : Except PyExc Unit :=
  if w.readReleaseOk then Except.ok ()
  else Except.error (PyExc.osError "FileNotFoundError")

/-- `GPG2.export_key` (`gpg.py`): `subprocess.check_output` on `/bin/gpg
--export`, raising `CalledProcessError` on nonzero exit. -/
def export_key (w : GpgWorld) : Except PyExc Unit :=
  if w.exportExit ≠ 0 then
    Except.error (PyExc.calledProcessError w.exportExit)
  else Except.ok ()

/-- The body of `sign_repo` (`gpg.py` lines 177-196): import the private
key, detach-sign the `Release` file, clear-sign it into `InRelease`, export
the public key; each step runs only when all earlier ones succeeded. -/
def sign_repo_body (w : GpgWorld) : Except PyExc Unit := do
  let _ ← import_priv_key w
  let _ ← sign_file w
  let _ ← sign_file w
  let _ ← export_key w
  pure ()

/-- `sign_repo` (`gpg.py`): the body inside `with TempGPG(tmp)`; the pair
holds the outcome and whether the ephemeral keyring directory still exists
afterwards. -/
def sign_repo_run (w : GpgWorld) : Except PyExc Unit × Bool :=
  withTempGPG w.tmpdirDebug (sign_repo_body w)

/-- The `Release` path `create_repo` (`apt/build_repo.py` line 190) writes
for a suite: `Path(repo) / "dists" / suite / "Release"`. -/
def release_file_path (repo : PyPath) (suite : String) : PyPath :=
  repo ++ ["dists", suite, "Release"]

/-- The `Release` path `sign_repo` (`gpg.py` line 175) reads and signs:
`Path(root) / "dists" / "stable" / "Release"` — the suite is hard-coded,
`sign_repo` takes no suite parameter and `build_repo` (line 67) passes
none. -/
def sign_repo_release (root : PyPath) : PyPath :=
  root ++ ["dists", "stable", "Release"]

/-- Where `sign_repo` writes the detached signature:
`release.with_suffix(".gpg")`. -/
def sign_repo_detached (root : PyPath) : PyPath :=
  pyWithSuffix (sign_repo_release root) ".gpg"

/-- Where `sign_repo` writes the clear-signed document:
`release.parent / "InRelease"`. -/
def sign_repo_inrelease (root : PyPath) : PyPath :=
  (sign_repo_release root).dropLast ++ ["InRelease"]

/-! Spec-side definitions: these follow the words of the claims (not the
source) and exist to state the claims so they can be compared with what the
embedded code produces. -/

/-- A manifest hash-table line for a plain index: its repository-relative
path ends in `/Packages`. -/
def isPlainEntry (l : String) : Bool :=
  endsWithL l "/Packages"

/-- A manifest hash-table line for a compressed index: its path ends in
`Packages.gz`. -/
def isGzEntry (l : String) : Bool :=
  endsWithL l "Packages.gz"

/-- One of the three algorithm header lines. -/
def isAlgHeader (l : String) : Bool :=
  l = "MD5Sum:" ∨ l = "SHA1:" ∨ l = "SHA256:"

/-- Within one block: no plain-index line may appear after a compressed-index
line (that is, all plain entries come first). -/
def plainsBeforeGzs : List String → Bool
  | [] => true
  | l :: rest =>
    if isGzEntry l then rest.all (fun x => !(isPlainEntry x))
    else plainsBeforeGzs rest

/-- Split off the lines before the next algorithm header. -/
def breakAtHeader : List String → List String × List String
  | [] => ([], [])
  | l :: rest =>
    if isAlgHeader l then ([], l :: rest)
    else
      let p := breakAtHeader rest
      (l :: p.1, p.2)

/-- The claim C1 hash-table shape, from the claim's words: three blocks
headed `MD5Sum:`, `SHA1:`, `SHA256:` in that order, and inside every block
all plain-index entries before any compressed-index entry. (The claim
additionally asks the plain entries to be in architecture-list order; that
extra conjunct is dropped here, which only weakens the property — the code
violates already this weaker part.) -/
def c1HashTableShape (lines : List String) : Bool :=
  match lines with
  | "MD5Sum:" :: rest =>
    let p1 := breakAtHeader rest
    match p1.2 with
    | "SHA1:" :: rest2 =>
      let p2 := breakAtHeader rest2
      match p2.2 with
      | "SHA256:" :: rest4 =>
        let p3 := breakAtHeader rest4
        p3.2.isEmpty && plainsBeforeGzs p1.1 && plainsBeforeGzs p2.1
          && plainsBeforeGzs p3.1
      | _ => false
    | _ => false
  | _ => false

/-- Unwrap an `Except`-valued line list, empty on error. -/
def okLines (e : Except String (List String)) : List String :=
  match e with
  | Except.ok l => l
  | Except.error _ => []

/-- Whether an `Except` value is a success. -/
def isOkB {ε α : Type} (e : Except ε α) : Bool :=
  match e with
  | Except.ok _ => true
  | Except.error _ => false

/-- Claim C7, from its words, as a decidable check on one candidate's final
path component: when the extension is not `.deb`, a name ending in `.tar`
or `.tar.gz` is skipped, any other name is rejected. -/
def c7Claim (name : String) : Bool :=
  if pySuffix name = ".deb" then true
  else if endsWithL name ".tar" || endsWithL name ".tar.gz" then
    classify_pkg name == PkgAction.skip
  else classify_pkg name == PkgAction.raiseUnexpected

/-- Placeholder digest functions for concrete evaluations: the ordering and
length claims do not depend on the digest values, only on where the external
digests are placed. -/
def tagHashes : HashFuncs :=
  { md5 := fun _ => "m", sha1 := fun _ => "s1", sha256 := fun _ => "s2" }

/-- Two-architecture concrete input for the ordering counterexample: the
plain indices of `amd64` and `arm64`. -/
def twoArchPackages : List (PyPath × String) :=
  [(["r", "dists", "stable", "main", "binary-amd64", "Packages"], "A"),
   (["r", "dists", "stable", "main", "binary-arm64", "Packages"], "B")]

/-- The matching compressed indices. -/
def twoArchPackagesGz : List (PyPath × Bytes) :=
  [(["r", "dists", "stable", "main", "binary-amd64", "Packages.gz"], [1]),
   (["r", "dists", "stable", "main", "binary-arm64", "Packages.gz"], [2])]

/-- The interleaved form one algorithm block actually takes: per architecture
pair, the plain-index line immediately followed by the compressed-index
line. -/
def interleavedBlock (f : Bytes → String)
    (pairs : List ((PyPath × String) × (PyPath × Bytes))) : List String :=
  pairs.flatMap (fun e =>
    [hashLine f e.1.1 (utf8Encode e.1.2), hashLine f e.2.1 e.2.2])

/-- A signing run whose key file imports cleanly (`gpg --import` exits 0 —
what happens for a file holding only public keys) yet yields zero secret
keys, with every later step succeeding and `TMPDIR_DEBUG` unset. -/
def zeroSecretKeyWorld : GpgWorld :=
  { importExit := 0, secretKeysInFile := 0, readReleaseOk := true,
    exportExit := 0, tmpdirDebug := false }

/-- A signing run whose key import subprocess fails with exit status 2. -/
def failedImportWorld : GpgWorld :=
  { importExit := 2, secretKeysInFile := 1, readReleaseOk := true,
    exportExit := 0, tmpdirDebug := false }

/-- Concrete pool for the idempotence check: an old entry for `a.deb` and an
unrelated entry. -/
def samplePool : Pool :=
  [("a.deb", ["old", "place", "a.deb"]), ("b.deb", ["x", "b.deb"])]

/-! # Theorems -/

/-- Helper: `get_packages_hashes` on sequences of equal length succeeds and
produces, per algorithm in source order, the header line followed by the
per-architecture interleaving of plain and compressed entries. -/
theorem get_packages_hashes_eq (H : HashFuncs)
    (packages : List (PyPath × String)) (packages_gz : List (PyPath × Bytes))
    (h : packages.length = packages_gz.length) :
    get_packages_hashes H packages packages_gz =
      Except.ok
        (("MD5Sum:" :: interleavedBlock H.md5 (packages.zip packages_gz)) ++
         (("SHA1:" :: interleavedBlock H.sha1 (packages.zip packages_gz)) ++
          ("SHA256:" :: interleavedBlock H.sha256 (packages.zip packages_gz)))) := by
  simp [get_packages_hashes, h, headerHashes, interleavedBlock]

/-- Claim C1, counterexample: already with two architectures the manifest's
hash table does NOT place all plain-index entries of a block before the
compressed-index entries — the code walks `zip(packages, packages_gz)` and
emits plain and compressed lines alternately per architecture, so inside the
`MD5Sum` block the `arm64` plain entry follows the `amd64` compressed entry.
The claim's shape predicate `c1HashTableShape` is false of the actual
output. -/
theorem c1_counterexample :
    isOkB (get_packages_hashes tagHashes twoArchPackages twoArchPackagesGz) = true ∧
    c1HashTableShape
      (okLines (get_packages_hashes tagHashes twoArchPackages twoArchPackagesGz)) =
      false := by
  decide

/-- Claim C1 as amended: for every non-empty mapping of included
architectures the hash table still consists of the three algorithm blocks in
the fixed order `MD5Sum`, `SHA1`, `SHA256`; but within each block the
entries are grouped per architecture in architecture-list order, each
architecture's plain-index entry immediately followed by its
compressed-index entry (instead of all plain entries first). -/
theorem c1_hash_blocks_per_arch_interleaved (H : HashFuncs)
    (packages : List (PyPath × String)) (packages_gz : List (PyPath × Bytes))
    (h : packages.length = packages_gz.length) :
    get_packages_hashes H packages packages_gz =
      Except.ok
        (("MD5Sum:" :: interleavedBlock H.md5 (packages.zip packages_gz)) ++
         (("SHA1:" :: interleavedBlock H.sha1 (packages.zip packages_gz)) ++
          ("SHA256:" :: interleavedBlock H.sha256 (packages.zip packages_gz)))) :=
  get_packages_hashes_eq H packages packages_gz h

/-- Witness for `c1_hash_blocks_per_arch_interleaved` at the concrete
two-architecture input. -/
theorem c1_hash_blocks_per_arch_interleaved_check :
    get_packages_hashes tagHashes twoArchPackages twoArchPackagesGz =
      Except.ok
        (("MD5Sum:" :: interleavedBlock tagHashes.md5
            (twoArchPackages.zip twoArchPackagesGz)) ++
         (("SHA1:" :: interleavedBlock tagHashes.sha1
             (twoArchPackages.zip twoArchPackagesGz)) ++
          ("SHA256:" :: interleavedBlock tagHashes.sha256
             (twoArchPackages.zip twoArchPackagesGz)))) :=
  c1_hash_blocks_per_arch_interleaved tagHashes twoArchPackages twoArchPackagesGz
    (by decide)

/-- Claim C2: every line of the hash table is either an algorithm header or
a `hashLine f p content` — which by definition prints `f content` and
`toString content.length` side by side, so the decimal length field counts
exactly the bytes digested — where `content` is the UTF-8 encoding of the
plain index text for plain entries and the raw bytes for compressed
entries, for each of the three digest algorithms. -/
theorem c2_length_field_matches_hashed_bytes (H : HashFuncs)
    (packages : List (PyPath × String)) (packages_gz : List (PyPath × Bytes))
    (lines : List String)
    (h : get_packages_hashes H packages packages_gz = Except.ok lines) :
    ∀ l ∈ lines, isAlgHeader l = true ∨
      (∃ f p txt, f ∈ [H.md5, H.sha1, H.sha256] ∧ (p, txt) ∈ packages ∧
        l = hashLine f p (utf8Encode txt)) ∨
      (∃ f p bs, f ∈ [H.md5, H.sha1, H.sha256] ∧ (p, bs) ∈ packages_gz ∧
        l = hashLine f p bs) := by
  intro l hl
  unfold get_packages_hashes at h
  split at h
  case isTrue hlen =>
    injection h with h
    subst h
    rw [List.mem_flatMap] at hl
    obtain ⟨hh, hhmem, hl⟩ := hl
    have hf : hh.2 ∈ [H.md5, H.sha1, H.sha256] ∧ isAlgHeader (hh.1 ++ ":") = true := by
      simp only [headerHashes, List.mem_cons, List.not_mem_nil, or_false] at hhmem
      rcases hhmem with h1 | h1 | h1 <;> subst h1 <;> simp [isAlgHeader]
    rcases List.mem_cons.mp hl with hl | hl
    · exact Or.inl (hl ▸ hf.2)
    · rw [List.mem_flatMap] at hl
      obtain ⟨elem, hemem, hl⟩ := hl
      obtain ⟨hp, hg⟩ := List.of_mem_zip hemem
      simp only [List.mem_cons, List.not_mem_nil, or_false] at hl
      rcases hl with hl | hl
      · exact Or.inr (Or.inl ⟨hh.2, elem.1.1, elem.1.2, hf.1, hp, hl⟩)
      · exact Or.inr (Or.inr ⟨hh.2, elem.2.1, elem.2.2, hf.1, hg, hl⟩)
  case isFalse => simp at h

/-- Witness for `c2_length_field_matches_hashed_bytes` at the concrete
two-architecture input, checked at the first output line. -/
theorem c2_length_field_matches_hashed_bytes_check :
    isAlgHeader "MD5Sum:" = true ∨
      (∃ f p txt, f ∈ [tagHashes.md5, tagHashes.sha1, tagHashes.sha256] ∧
        (p, txt) ∈ twoArchPackages ∧ "MD5Sum:" = hashLine f p (utf8Encode txt)) ∨
      (∃ f p bs, f ∈ [tagHashes.md5, tagHashes.sha1, tagHashes.sha256] ∧
        (p, bs) ∈ twoArchPackagesGz ∧ "MD5Sum:" = hashLine f p bs) :=
  c2_length_field_matches_hashed_bytes tagHashes twoArchPackages twoArchPackagesGz
    (okLines (get_packages_hashes tagHashes twoArchPackages twoArchPackagesGz)) rfl
    "MD5Sum:" (by decide)

/-- Claim C3: the code does NOT return a manifest when no architecture
produced packages — `packages, packages_gz = zip(*data.values(),
strict=False)` unpacks an empty iterator and raises `ValueError`, so
`create_release_file` on an empty mapping fails instead of emitting a
manifest with empty sections. This evaluates the embedded code at the
failing input. -/
theorem c3_empty_data_raises (H : HashFuncs) (date suite : String) :
    create_release_file H date [] suite =
      Except.error "not enough values to unpack (expected 2, got 0)" := rfl

/-- Claim C4: the compressed stream is NOT timestamp-free — `GzipFile`
defaults `mtime` to the current clock, which lands in header bytes 4..7, so
two runs over the identical index text at clock seconds 0 and 1 produce
different bytes whatever zlib's deflate and crc do. -/
theorem c4_gzip_embeds_timestamp (deflate : Bytes → Bytes) (crc32 : Bytes → Nat)
    (persistedGz : Bytes) (packages_file : PyPath) (packages : String) :
    (create_packages_gz deflate crc32 0 persistedGz packages_file packages false).2 ≠
      (create_packages_gz deflate crc32 1 persistedGz packages_file packages false).2 := by
  intro h
  have h4 := congrArg (fun l => l[4]?) h
  simp [create_packages_gz, gzipCompress, gzipHeader, le32] at h4

/-- Claim C5: the Signing Chain does NOT write next to the given suite's
manifest — `sign_repo` hard-codes the suite `stable` (and `build_repo`
passes it no suite), so for the suite `testing` the detached signature and
clear-signed document land under `dists/stable/`, not `dists/testing/`,
and the signed bytes are read from `dists/stable/Release`. -/
theorem c5_sign_repo_hardcodes_stable :
    sign_repo_release ["repo"] = release_file_path ["repo"] "stable" ∧
    sign_repo_detached ["repo"] = ["repo", "dists", "stable", "Release.gpg"] ∧
    sign_repo_inrelease ["repo"] = ["repo", "dists", "stable", "InRelease"] ∧
    sign_repo_release ["repo"] ≠ release_file_path ["repo"] "testing" ∧
    sign_repo_detached ["repo"] ≠ ["repo", "dists", "testing", "Release.gpg"] ∧
    sign_repo_inrelease ["repo"] ≠ ["repo", "dists", "testing", "InRelease"] := by
  decide

/-- Claim C6, counterexample: a key file that imports cleanly but yields
zero secret keys does not make the operation fail at all — `import_priv_key`
only checks the subprocess exit status (and the source defines no
`KeyImportError` anywhere) — so `sign_repo` completes successfully; the
keyring directory is gone afterwards. -/
theorem c6_counterexample :
    (sign_repo_run zeroSecretKeyWorld).1 = Except.ok () ∧
    (sign_repo_run zeroSecretKeyWorld).2 = false :=
  ⟨rfl, rfl⟩

/-- Claim C6 as amended: when the key-import subprocess exits nonzero the
operation fails with that `CalledProcessError` (there is no
`KeyImportError`, and a key file importing zero secret keys with exit
status 0 raises nothing at import); and provided `TMPDIR_DEBUG` is unset,
on every exit path the ephemeral keyring directory no longer exists
afterwards. -/
theorem c6_import_error_and_teardown (w : GpgWorld) :
    (w.tmpdirDebug = false → (sign_repo_run w).2 = false) ∧
    (w.importExit ≠ 0 →
      (sign_repo_run w).1 = Except.error (PyExc.calledProcessError w.importExit)) := by
  constructor
  · intro h
    simp [sign_repo_run, withTempGPG, h]
  · intro h
    simp [sign_repo_run, withTempGPG, sign_repo_body, import_priv_key, h,
      Bind.bind, Except.bind]

/-- Witness for `c6_import_error_and_teardown` at a run whose import
subprocess exits with status 2. -/
theorem c6_import_error_and_teardown_check :
    (sign_repo_run failedImportWorld).2 = false ∧
    (sign_repo_run failedImportWorld).1 =
      Except.error (PyExc.calledProcessError 2) :=
  ⟨(c6_import_error_and_teardown failedImportWorld).1 rfl,
   (c6_import_error_and_teardown failedImportWorld).2 (by decide)⟩

/-- Helper: a dot-free character list has no last dot. -/
theorem lastDotIdx_of_not_mem (l : List Char) (h : '.' ∉ l) :
    lastDotIdx l = none := by
  induction l with
  | nil => rfl
  | cons c cs ih =>
    have hc : c ≠ '.' := fun e => h (e ▸ List.mem_cons_self c cs)
    have hcs : '.' ∉ cs := fun m => h (List.mem_cons_of_mem c m)
    simp [lastDotIdx, ih hcs, hc]

/-- Helper: the last dot of `pre ++ "." ++ post` with dot-free `post` sits at
index `pre.length`. -/
theorem lastDotIdx_append_dot (pre post : List Char) (h : '.' ∉ post) :
    lastDotIdx (pre ++ '.' :: post) = some pre.length := by
  induction pre with
  | nil => simp [lastDotIdx, lastDotIdx_of_not_mem post h]
  | cons c cs ih => simp [lastDotIdx, ih]

/-- Helper: a nonempty string equals a nonempty character list. -/
theorem data_ne_nil_of_ne_empty (b : String) (hb : b ≠ "") : b.data ≠ [] := by
  intro h
  cases b with
  | mk data =>
    apply hb
    exact congrArg String.mk (by simpa using h)

/-- Helper: appending `.tar` to a nonempty name yields pathlib suffix
`.tar`. -/
theorem pySuffix_append_tar (b : String) (hb : b.data ≠ []) :
    pySuffix (b ++ ".tar") = ".tar" := by
  have hdata : (b ++ ".tar").data = b.data ++ '.' :: ['t', 'a', 'r'] := rfl
  have hlen : 0 < b.data.length := List.length_pos.mpr hb
  simp only [pySuffix, hdata, lastDotIdx_append_dot b.data ['t', 'a', 'r'] (by decide)]
  rw [if_pos ⟨hlen, by simp [List.length_append]⟩, List.drop_left]

/-- Helper: appending `.tar.gz` to a nonempty name yields pathlib suffix
`.gz`. -/
theorem pySuffix_append_targz (b : String) :
    pySuffix (b ++ ".tar.gz") = ".gz" := by
  have hdata : (b ++ ".tar.gz").data
      = (b.data ++ ['.', 't', 'a', 'r']) ++ '.' :: ['g', 'z'] := by
    rw [List.append_assoc]
    rfl
  simp only [pySuffix, hdata,
    lastDotIdx_append_dot (b.data ++ ['.', 't', 'a', 'r']) ['g', 'z'] (by decide)]
  rw [if_pos ⟨by simp [List.length_append], by simp [List.length_append]⟩,
    List.drop_left]

/-- Helper: `split('.')` of anything followed by `.tar.gz` ends in the parts
`tar`, `gz`, with at least one part before them. -/
theorem splitOnDot_targz (y : List Char) :
    ∃ p ps, splitOnDot (y ++ ['.', 't', 'a', 'r', '.', 'g', 'z'])
      = p :: (ps ++ [['t', 'a', 'r'], ['g', 'z']]) := by
  induction y with
  | nil => exact ⟨[], [], rfl⟩
  | cons c cs ih =>
    obtain ⟨p, ps, ih⟩ := ih
    by_cases hc : c = '.'
    · exact ⟨[], p :: ps, by simp [splitOnDot, hc, ih]⟩
    · exact ⟨c :: p, ps, by simp [splitOnDot, hc, ih]⟩

/-- Helper: `l[-2:]` of a list ending in two given elements is those two. -/
theorem lastTwo_append_two (l : List String) (a b : String) :
    lastTwo (l ++ [a, b]) = [a, b] := by
  unfold lastTwo
  have h2 : (l ++ [a, b]).length - 2 = l.length := by simp [List.length_append]
  rw [h2, List.drop_left]

/-- Helper: appending `.tar.gz` to a name holding at least one non-dot
character makes the last two pathlib suffixes `.tar`, `.gz`. -/
theorem pySuffixes_append_targz (b : String) (hb : b.data.any (· ≠ '.') = true) :
    lastTwo (pySuffixes (b ++ ".tar.gz")) = [".tar", ".gz"] := by
  have hdata : (b ++ ".tar.gz").data
      = b.data ++ ['.', 't', 'a', 'r', '.', 'g', 'z'] := rfl
  have hne : b.data.dropWhile (· = '.') ≠ [] := by
    intro h
    rw [List.dropWhile_eq_nil_iff] at h
    rcases List.any_eq_true.mp hb with ⟨x, hx, hxne⟩
    have := h x hx
    simp at this hxne
    exact hxne this
  have hgl : (b.data ++ ['.', 't', 'a', 'r', '.', 'g', 'z']).getLast? = some 'z' := by
    simp [List.getLast?_append]
  obtain ⟨p, ps, hsplit⟩ := splitOnDot_targz (b.data.dropWhile (· = '.'))
  unfold pySuffixes
  rw [hdata, hgl, if_neg (by simp), List.dropWhile_append,
    if_neg (by simpa [List.isEmpty_iff] using hne)]
  have hdw : (['.', 't', 'a', 'r', '.', 'g', 'z'] : List Char)
      = ['.', 't', 'a', 'r', '.', 'g', 'z'] := rfl
  rw [hsplit]
  simp only [List.tail_cons, List.map_append]
  exact lastTwo_append_two _ ".tar" ".gz"

/-- Claim C7, counterexample: a candidate whose resolved path's final
component is exactly `.tar` ends in `.tar`, but its pathlib suffix is empty
(a dot at index 0 yields no suffix) and its suffix list is empty, so the
loop raises `ValueError` for it instead of skipping it. -/
theorem c7_counterexample : c7Claim ".tar" = false := by decide

/-- Claim C7 as amended: a candidate whose extension is not `.deb` is
skipped without error and without a pool entry exactly when its pathlib
suffix is `.tar` (equivalently it ends in `.tar` with a nonempty stem) or
its last two pathlib suffixes are `.tar`, `.gz` (it ends in `.tar.gz` with
some non-dot character before); names such as a bare `.tar` dotfile fail
this test, and every failing candidate makes the loop raise the
invalid-input `ValueError` with no filesystem mutation for that file. -/
theorem c7_extension_gate (pool : Pool) (link : PyPath) :
    (∀ b : String, b ≠ "" →
      link_pkg pool (b ++ ".tar") link = Except.ok pool) ∧
    (∀ b : String, b.data.any (· ≠ '.') = true →
      link_pkg pool (b ++ ".tar.gz") link = Except.ok pool) ∧
    (∀ name : String, pySuffix name ≠ ".deb" → pySuffix name ≠ ".tar" →
      lastTwo (pySuffixes name) ≠ [".tar", ".gz"] →
      link_pkg pool name link =
        Except.error (PyExc.valueError ("Unexpected file: " ++ name))) := by
  refine ⟨?_, ?_, ?_⟩
  · intro b hb
    have hs := pySuffix_append_tar b (data_ne_nil_of_ne_empty b hb)
    simp [link_pkg, classify_pkg, hs]
  · intro b hb
    have hs := pySuffix_append_targz b
    have hss := pySuffixes_append_targz b hb
    simp [link_pkg, classify_pkg, hs, hss]
  · intro name h1 h2 h3
    simp [link_pkg, classify_pkg, h1, h2, h3]

/-- Witness for `c7_extension_gate`: `pkg.tar` and `x.tar.gz` are skipped,
`README` is rejected. -/
theorem c7_extension_gate_check :
    link_pkg [] ("pkg" ++ ".tar") [] = Except.ok [] ∧
    link_pkg [] ("x" ++ ".tar.gz") [] = Except.ok [] ∧
    link_pkg [] "README" [] =
      Except.error (PyExc.valueError ("Unexpected file: " ++ "README")) :=
  ⟨(c7_extension_gate [] []).1 "pkg" (by decide),
   (c7_extension_gate [] []).2.1 "x" (by decide),
   (c7_extension_gate [] []).2.2 "README" (by decide) (by decide) (by decide)⟩

/-- Helper: `find_common_parent a b` is the common prefix: it equals both
`a.take` and `b.take` of its own length. -/
theorem find_common_parent_take : ∀ (a b : PyPath),
    find_common_parent a b = a.take (find_common_parent a b).length ∧
    find_common_parent a b = b.take (find_common_parent a b).length := by
  intro a
  induction a with
  | nil => intro b; simp [find_common_parent]
  | cons x a ih =>
    intro b
    cases b with
    | nil => simp [find_common_parent]
    | cons y b =>
      by_cases hxy : x = y
      · subst hxy
        obtain ⟨h1, h2⟩ := ih b
        constructor
        · simp only [find_common_parent, if_pos rfl, List.length_cons, List.take_succ_cons]
          exact congrArg (x :: ·) h1
        · simp only [find_common_parent, if_pos rfl, List.length_cons, List.take_succ_cons]
          exact congrArg (x :: ·) h2
      · simp [find_common_parent, hxy]

/-- Helper: lexical resolution walks straight over components that are not
`..`. -/
theorem resolve_fold_no_up (l : List String) :
    ∀ acc : List String, (∀ x ∈ l, x ≠ "..") →
      l.foldl (fun acc comp => if comp = ".." then acc.dropLast else acc ++ [comp])
        acc = acc ++ l := by
  induction l with
  | nil => intro acc _; simp
  | cons c l ih =>
    intro acc h
    have hc : c ≠ ".." := h c (List.mem_cons_self c l)
    simp only [List.foldl_cons, if_neg hc]
    rw [ih (acc ++ [c]) (fun x hx => h x (List.mem_cons_of_mem c hx))]
    simp

/-- Helper: `n` `..` components pop exactly an `n`-element tail. -/
theorem resolve_fold_ups (n : Nat) :
    ∀ (D B : List String), D.length = n →
      (List.replicate n "..").foldl
        (fun acc comp => if comp = ".." then acc.dropLast else acc ++ [comp])
        (B ++ D) = B := by
  induction n with
  | zero =>
    intro D B hD
    rw [List.eq_nil_of_length_eq_zero hD]
    simp
  | succ n ih =>
    intro D B hD
    have hDne : D ≠ [] := by intro h; subst h; simp at hD
    rw [List.replicate_succ, List.foldl_cons, if_pos rfl,
      List.dropLast_append_of_ne_nil _ hDne]
    exact ih D.dropLast B (by simp [List.length_dropLast, hD])

/-- Claim C8: the pool symlink `symlinker` computes over the longest common
component prefix of the resolved source and target resolves, from the pool
entry's directory, back to the source's resolved path; and since the link
only mentions components below the common prefix, re-rooting that prefix
anywhere (`base`) still resolves to the relocated source. The hypotheses
say the two paths are resolved (no `..` components, as `Path.resolve`
guarantees) and that the pool entry is not itself an ancestor of the
source. -/
theorem c8_symlink_relative_over_common_parent (src target : PyPath)
    (h1 : ".." ∉ src) (h2 : ".." ∉ target)
    (h3 : target.drop (find_common_parent src target).length ≠ []) :
    resolveParts (target.dropLast ++ symlinker src target) = src ∧
    ∀ base : PyPath, ".." ∉ base →
      resolveParts
        (base ++ ((target.drop (find_common_parent src target).length).dropLast
          ++ symlinker src target)) =
        base ++ src.drop (find_common_parent src target).length := by
  have key : ∀ base : PyPath, ".." ∉ base →
      resolveParts
        (base ++ ((target.drop (find_common_parent src target).length).dropLast
          ++ symlinker src target)) =
        base ++ src.drop (find_common_parent src target).length := by
    intro base hbase
    unfold symlinker resolveParts
    have hns : ∀ x ∈ src.drop (find_common_parent src target).length, x ≠ ".." :=
      fun x hx e => h1 (e ▸ List.drop_subset _ src hx)
    have hnt : ∀ x ∈ (target.drop (find_common_parent src target).length).dropLast,
        x ≠ ".." :=
      fun x hx e => h2 (e ▸ List.drop_subset _ target (List.dropLast_subset _ hx))
    have hnb : ∀ x ∈ base ++ (target.drop (find_common_parent src target).length).dropLast,
        x ≠ ".." := by
      intro x hx
      rcases List.mem_append.mp hx with hx | hx
      · exact fun e => hbase (e ▸ hx)
      · exact hnt x hx
    rw [show base ++ ((target.drop (find_common_parent src target).length).dropLast
        ++ (List.replicate
            (target.drop (find_common_parent src target).length).dropLast.length ".."
          ++ src.drop (find_common_parent src target).length)) =
        ((base ++ (target.drop (find_common_parent src target).length).dropLast)
          ++ List.replicate
            (target.drop (find_common_parent src target).length).dropLast.length "..")
          ++ src.drop (find_common_parent src target).length by
      simp [List.append_assoc]]
    rw [List.foldl_append, List.foldl_append, resolve_fold_no_up _ [] hnb,
      List.nil_append,
      resolve_fold_ups _ _ base rfl,
      resolve_fold_no_up _ base hns]
  refine ⟨?_, key⟩
  obtain ⟨hsrc, htgt⟩ := find_common_parent_take src target
  have hsplit_src : find_common_parent src target
      ++ src.drop (find_common_parent src target).length = src := by
    conv_rhs => rw [← List.take_append_drop (find_common_parent src target).length src]
    rw [← hsrc]
  have hsplit_tgt : find_common_parent src target
      ++ target.drop (find_common_parent src target).length = target := by
    conv_rhs => rw [← List.take_append_drop (find_common_parent src target).length target]
    rw [← htgt]
  have hcne : ".." ∉ find_common_parent src target := by
    intro hm
    rw [hsrc] at hm
    exact h1 (List.take_subset _ src hm)
  have h4 : target.dropLast = find_common_parent src target
      ++ (target.drop (find_common_parent src target).length).dropLast := by
    conv_lhs => rw [← hsplit_tgt]
    rw [List.dropLast_append_of_ne_nil _ h3]
  rw [h4, List.append_assoc, key (find_common_parent src target) hcne, hsplit_src]

/-- Witness for `c8_symlink_relative_over_common_parent` at a concrete pool
layout: linking `/home/u/debs/a.deb` as `/home/u/repo/pool/main/a.deb`
yields the link `../../../debs/a.deb`, which resolves from the pool
directory back to the source. -/
theorem c8_symlink_relative_over_common_parent_check :
    resolveParts ((["home", "u", "repo", "pool", "main", "a.deb"] : PyPath).dropLast
      ++ symlinker ["home", "u", "debs", "a.deb"]
        ["home", "u", "repo", "pool", "main", "a.deb"]) =
      ["home", "u", "debs", "a.deb"] :=
  (c8_symlink_relative_over_common_parent ["home", "u", "debs", "a.deb"]
    ["home", "u", "repo", "pool", "main", "a.deb"]
    (by decide) (by decide) (by decide)).1

/-- Claim C9: linking an accepted (`.deb`) package twice is idempotent: the
first call unlinks any same-named pool entry and records the symlink; the
second call succeeds on the resulting pool (the fresh entry is first
unlinked, so `symlink_to` cannot hit `FileExistsError`) and returns the
same pool; that pool holds exactly one entry of that name. -/
theorem c9_pool_link_idempotent (pool : Pool) (name : String) (link : PyPath)
    (h : pySuffix name = ".deb") :
    link_pkg pool name link =
      Except.ok ((name, link) :: pyUnlinkMissingOk pool name) ∧
    link_pkg ((name, link) :: pyUnlinkMissingOk pool name) name link =
      Except.ok ((name, link) :: pyUnlinkMissingOk pool name) ∧
    ((name, link) :: pyUnlinkMissingOk pool name).countP
      (fun e => e.1 == name) = 1 := by
  have hcl : classify_pkg name = PkgAction.link := by
    simp [classify_pkg, h]
  have hnone : ∀ e ∈ pyUnlinkMissingOk pool name, e.1 ≠ name := by
    intro e he
    have := (List.mem_filter.mp he).2
    simpa using this
  have hany : ((pyUnlinkMissingOk pool name).any (fun e => e.1 = name)) = false := by
    rw [List.any_eq_false]
    intro e he
    simpa using hnone e he
  have hu : pyUnlinkMissingOk ((name, link) :: pyUnlinkMissingOk pool name) name
      = pyUnlinkMissingOk pool name := by
    unfold pyUnlinkMissingOk
    rw [List.filter_cons_of_neg (by simp)]
    exact List.filter_eq_self.mpr (fun e he => by simpa using hnone e he)
  refine ⟨?_, ?_, ?_⟩
  · simp [link_pkg, hcl, pySymlinkTo, hany]
  · simp [link_pkg, hcl, pySymlinkTo, hu, hany]
  · rw [List.countP_cons_of_pos _ _ (by simp)]
    rw [List.countP_eq_zero.mpr (fun e he => by simpa using hnone e he)]

/-- Witness for `c9_pool_link_idempotent` at a concrete pool holding an old
`a.deb` entry and an unrelated entry. -/
theorem c9_pool_link_idempotent_check :
    link_pkg samplePool "a.deb" ["up", "a.deb"] =
      Except.ok (("a.deb", ["up", "a.deb"]) :: pyUnlinkMissingOk samplePool "a.deb") ∧
    link_pkg (("a.deb", ["up", "a.deb"]) :: pyUnlinkMissingOk samplePool "a.deb")
      "a.deb" ["up", "a.deb"] =
      Except.ok (("a.deb", ["up", "a.deb"]) :: pyUnlinkMissingOk samplePool "a.deb") ∧
    (("a.deb", ["up", "a.deb"]) :: pyUnlinkMissingOk samplePool "a.deb").countP
      (fun e => e.1 == "a.deb") = 1 :=
  c9_pool_link_idempotent samplePool "a.deb" ["up", "a.deb"] (by decide)

/-- Claim C10: the working directory after `create_packages` equals the one
before it, whether the external scanner returns or raises (and even when
`os.chdir(repo)` itself raises), provided the restoring `os.chdir` can
re-enter the original directory — `change_cwd` restores it in a `finally`. -/
theorem c10_cwd_restored {α : Type} (chdirOk : String → Bool) (repo : String)
    (scanner : String → Except PyExc α × String) (cwd0 : String)
    (h : chdirOk cwd0 = true) :
    (create_packages_cwd chdirOk repo scanner cwd0).2 = cwd0 := by
  unfold create_packages_cwd change_cwd
  by_cases hp : chdirOk repo <;> simp [hp, h]

/-- Witness for `c10_cwd_restored`: a scanner that raises (`ValueError`, the
"no packages" case) from inside the repository root still leaves the
process back in the original working directory. -/
theorem c10_cwd_restored_check :
    (create_packages_cwd (α := Unit) (fun _ => true) "repo"
      (fun s => (Except.error (PyExc.valueError "no packages found"), s))
      "home").2 = "home" :=
  c10_cwd_restored (α := Unit) (fun _ => true) "repo"
    (fun s => (Except.error (PyExc.valueError "no packages found"), s)) "home" rfl

end RepoUtilities
